import Mathlib

/-!
Verification of the message-status reconciliation engine
(src/ECS/message-status/src/app.py) against its specification.

The engine is embedded shallowly: JSON values are an inductive type,
Python dicts are association lists, every network effect (SQS receive,
HTTP lookup, SQS send, SQS delete) is a parameter or an oracle, and the
per-cycle control flow of poll_queue is a pure function producing the
observable outcome of one polling cycle (retry submissions attempted,
forward set built, whether it was submitted, receipt handles deleted,
and whether an uncaught exception abandoned the batch).
-/

namespace MessageStatus

/-- A JSON value, as produced by json.loads / response.json(). -/
inductive JVal where
  | null
  | bool (b : Bool)
  | num (n : Int)
  | str (s : String)
  | arr (xs : List JVal)
  | obj (fields : List (String × JVal))

/-- A parsed JSON object (a Python dict with string keys). -/
abbrev Dict := List (String × JVal)

/-- First binding of a key, mirroring Python dict lookup (keys are unique
in a dict that came out of json.loads). -/
def dictFind : Dict → String → Option JVal
  | [], _ => none
  | (k, v) :: rest, key => if k = key then some v else dictFind rest key

/-- Python d.get(key): returns None when the key is absent.  An absent key
and a key bound to JSON null are indistinguishable to the caller, exactly
as in Python, so both are JVal.null here. -/
def pyGet (d : Dict) (key : String) : JVal :=
  (dictFind d key).getD .null

/-- Python d.get(key, default). -/
def pyGetD (d : Dict) (key : String) (default : JVal) : JVal :=
  (dictFind d key).getD default

/-- Python `key in d`. -/
def hasKey (d : Dict) (key : String) : Bool :=
  (dictFind d key).isSome

/-- Python truthiness of a JSON value. -/
def truthy : JVal → Bool
  | .null => false
  | .bool b => b
  | .num n => n != 0
  | .str s => s != ""
  | .arr xs => !xs.isEmpty
  | .obj fields => !fields.isEmpty

/-- Python `v == s` for a string literal s: true only for an equal string. -/
def pyEqStr (v : JVal) (s : String) : Bool :=
  match v with
  | .str t => t == s
  | _ => false

/-- Python dict assignment d[k] = v (used through dict.update): replaces the
first binding of k, or appends a new binding. -/
def dictSet : Dict → String → JVal → Dict
  | [], k, v => [(k, v)]
  | (k', v') :: rest, k, v =>
    if k' = k then (k, v) :: rest else (k', v') :: dictSet rest k v

/-- Truthiness of the optional lookup result, mirroring the Python test
`if not original_message:` — None and the empty dict are both falsy. -/
def origTruthy : Option Dict → Bool
  | none => false
  | some d => !d.isEmpty

/-- The four required StatusReport fields (app.py line 82). -/
def required_fields : List String :=
  ["sns_id", "delivery_status", "provider_response", "timestamp"]

/-- Presence check of app.py lines 83-86: `field in message_data`. -/
def requiredOk (message_data : Dict) : Bool :=
  required_fields.all (fun f => hasKey message_data f)

/-- process_message (app.py lines 62-107).  The body already parsed as a
dict (an unparsable body raises earlier, at poll_queue line 283, before
process_message can run).  Validation of the four required fields comes
first; then the original message is copied and updated with the status
outcome.  When original_message is None, `original_message.copy()` raises
AttributeError inside the try block and the function returns None.
`now` stands for int(time.time() * 1000) at processing time; the two
time.time() calls are modelled at the same millisecond. -/
def process_message (now : Int) (message_data : Dict) (original_message : Option Dict) :
    Option Dict :=
  if requiredOk message_data then
    match original_message with
    | some om =>
      some (dictSet (dictSet (dictSet (dictSet (dictSet om
        "sns_id" (pyGet message_data "sns_id"))
        "status" (pyGet message_data "delivery_status"))
        "delivered_ts" (.num now))
        "created_at" (.num now))
        "apid" (pyGetD om "ap_id" (.str "")))
    | none => none
  else none

/-- Outcome of the HTTP GET performed by query_original_message: either the
request raised (network error, timeout), or a response arrived with a
status code and a body that may or may not be valid JSON. -/
inductive HttpResult where
  | exn
  | resp (status : Nat) (body : Option JVal)

/-- query_original_message (app.py lines 109-146), as a function of the
HTTP outcome.  Every branch of the try block that raises is caught by the
enclosing `except Exception` and yields None: a non-200 status, a body
that is not JSON, an envelope that is not a dict, a falsy `success` or
`data`, an empty or non-list `data`, and a first element that is not a
dict (on which the log call `original_message.get(...)` raises). -/
def query_original_message (r : HttpResult) : Option Dict :=
  match r with
  | .exn => none
  | .resp status body =>
    if status = 200 then
      match body with
      | some (.obj fields) =>
        if truthy (pyGet fields "success") && truthy (pyGet fields "data") then
          match pyGet fields "data" with
          | .arr (.obj om :: _) => some om
          | _ => none
        else none
      | _ => none
    else none

/-- The lookup keyed by the sns_id value taken from the message body
(app.py line 120: api_url = self.query_url + sns_id).  String
concatenation raises TypeError unless sns_id is a string; the exception is
caught and the lookup returns None.  For a string sns_id the network
oracle decides the HTTP outcome. -/
def lookupFor (oracle : String → HttpResult) : JVal → Option Dict
  | .str s => query_original_message (oracle s)
  | _ => none

/-- The retry decision of app.py lines 301-304. -/
def should_retry (message_data : Dict) (queue_name : String) : Bool :=
  pyEqStr (pyGet message_data "delivery_status") "FAILURE" || queue_name == "DLQ"

/-- Python `current_retry_cnt < self.max_retry_cnt` (app.py line 312):
defined for numbers and bools (bool is an int in Python), a TypeError for
anything else — None, strings, lists, dicts. -/
def pyLtInt (v : JVal) (m : Int) : Except Unit Bool :=
  match v with
  | .num n => .ok (decide (n < m))
  | .bool b => .ok (decide ((if b then (1 : Int) else 0) < m))
  | _ => .error ()

/-- Python `current_retry_cnt + 1`, in the cases where pyLtInt succeeded. -/
def pyAdd1 : JVal → JVal
  | .num n => .num (n + 1)
  | .bool b => .num ((if b then 1 else 0) + 1)
  | v => v

/-- Static configuration read from the environment at startup.  __init__
(app.py lines 45-46) validates that every configured URL is non-empty. -/
structure Config where
  max_retry_cnt : Int
  push_queue_url : String

/-- send_retry_message (app.py lines 148-187).  Returns the list of send
attempts made (zero or one), each paired with its outcome as decided by
the send oracle, together with the returned bool.  When PUSH_QUEUE_URL is
empty the function returns False without attempting a send. -/
def send_retry_message (cfg : Config) (sendOk : Dict → Bool) (original_message : Dict)
    (retry_count : JVal) : List (Dict × Bool) × Bool :=
  if cfg.push_queue_url == "" then ([], false)
  else
    let retry_message : Dict :=
      [("apid", pyGetD original_message "ap_id" (.str "")),
       ("transaction_id", pyGetD original_message "transaction_id" (.str "")),
       ("token", pyGetD original_message "token" (.str "")),
       ("payload", pyGetD original_message "payload" (.obj [])),
       ("retry_cnt", retry_count)]
    ([(retry_message, sendOk retry_message)], sendOk retry_message)

/-- One message as returned by sqs.receive_message: its body (None when
json.loads at app.py line 283, or the dict access at line 284, raises —
which abandons the whole batch before any lookup is issued) and its
receipt handle.  MessageId is used only in log lines and is omitted. -/
structure SqsMessage where
  body : Option Dict
  receiptHandle : String

/-- Step 1 of poll_queue (app.py lines 280-285): parse every body.  If any
body fails to parse as a dict the loop raises and the enclosing
`except Exception` (line 342) abandons the cycle with no side effects. -/
def bodiesOf : List SqsMessage → Option (List Dict)
  | [] => some []
  | m :: rest =>
    match m.body, bodiesOf rest with
    | some b, some bs => some (b :: bs)
    | _, _ => none

/-- Everything the per-message loop needs for one message: the parsed
body, the (already joined) lookup result, and the receipt handle. -/
abbrev Triple := Dict × Option Dict × String

/-- Step 2 of poll_queue (app.py lines 287-292): the concurrent lookups,
joined by index so that each message is paired with its own result. -/
def cycleTriples (oracle : String → HttpResult) :
    List SqsMessage → List Dict → List Triple
  | m :: ms, b :: bs =>
    (b, lookupFor oracle (pyGet b "sns_id"), m.receiptHandle) :: cycleTriples oracle ms bs
  | _, _ => []

/-- The accumulators of the per-message loop: retry sends attempted (with
their oracle outcome), processed_messages, and receipt_handles. -/
structure Acc where
  retries : List (Dict × Bool)
  processed : List Dict
  handles : List String

/-- Step 3 of poll_queue (app.py lines 297-330), one message at a time.
The second component is true when an uncaught exception was raised —
only possible at line 312, where a non-numeric retry_cnt makes the
comparison with max_retry_cnt a TypeError; the batch is then abandoned,
keeping the side effects (retry sends) already performed. -/
def processLoop (cfg : Config) (now : Int) (qname : String) (sendOk : Dict → Bool) :
    List Triple → Acc → Acc × Bool
  | [], acc => (acc, false)
  | (message_data, original_message, rh) :: rest, acc =>
    match original_message with
    | none => processLoop cfg now qname sendOk rest acc
    | some om =>
      if om.isEmpty then
        -- `if not original_message: continue` (lines 307-309)
        processLoop cfg now qname sendOk rest acc
      else
        match (if should_retry message_data qname then
                 pyLtInt (pyGet om "retry_cnt") cfg.max_retry_cnt
               else Except.ok false) with
        | .error _ => (acc, true)
        | .ok underCeiling =>
          let acc1 :=
            if underCeiling && truthy (pyGet message_data "sns_id") && !om.isEmpty then
              { acc with retries := acc.retries ++
                  (send_retry_message cfg sendOk om (pyAdd1 (pyGet om "retry_cnt"))).1 }
            else acc
          let acc2 :=
            match process_message now message_data (some om) with
            | some e => { acc1 with processed := acc1.processed ++ [e],
                                    handles := acc1.handles ++ [rh] }
            | none => { acc1 with handles := acc1.handles ++ [rh] }
          processLoop cfg now qname sendOk rest acc2

/-- Observable outcome of one polling cycle. -/
structure CycleResult where
  retries : List (Dict × Bool)
  forwardSet : List Dict
  submitted : Bool
  acked : List String
  aborted : Bool

/-- poll_queue (app.py lines 255-343) for one received batch.  The send
oracle decides each retry send outcome (observed only in logs), and
forwardOk is the single success/failure outcome of
send_to_event_queue_async for the batch (lines 331-339): on success every
collected receipt handle is deleted, on failure none, and when
processed_messages is empty the handles are deleted without a forward
submission. -/
def poll_queue (cfg : Config) (now : Int) (qname : String)
    (oracle : String → HttpResult) (sendOk : Dict → Bool)
    (messages : List SqsMessage) (forwardOk : Bool) : CycleResult :=
  match bodiesOf messages with
  | none =>
    { retries := [], forwardSet := [], submitted := false, acked := [], aborted := true }
  | some bodies =>
    match processLoop cfg now qname sendOk (cycleTriples oracle messages bodies)
        { retries := [], processed := [], handles := [] } with
    | (acc, true) =>
      { retries := acc.retries, forwardSet := [], submitted := false,
        acked := [], aborted := true }
    | (acc, false) =>
      if acc.processed.isEmpty then
        { retries := acc.retries, forwardSet := acc.processed, submitted := false,
          acked := acc.handles, aborted := false }
      else if forwardOk then
        { retries := acc.retries, forwardSet := acc.processed, submitted := true,
          acked := acc.handles, aborted := false }
      else
        { retries := acc.retries, forwardSet := acc.processed, submitted := true,
          acked := [], aborted := false }

/-! Per-message summaries of the loop body, used to characterise the loop.
Each is the contribution of one (body, lookup result, handle) triple when
the loop reaches it without an earlier exception. -/

/-- True when processing this message raises: the lookup result is truthy,
the retry branch is taken, and retry_cnt is not comparable with an int
(missing, null, string, list or dict). -/
def raisePred (cfg : Config) (qname : String) : Triple → Bool
  | (message_data, some om, _) =>
    !om.isEmpty && should_retry message_data qname &&
      (match pyLtInt (pyGet om "retry_cnt") cfg.max_retry_cnt with
       | .error _ => true
       | .ok _ => false)
  | _ => false

/-- Retry send attempts this message contributes. -/
def retryOf (cfg : Config) (qname : String) (sendOk : Dict → Bool) : Triple → List (Dict × Bool)
  | (message_data, some om, _) =>
    if om.isEmpty then []
    else
      match (if should_retry message_data qname then
               pyLtInt (pyGet om "retry_cnt") cfg.max_retry_cnt
             else Except.ok false) with
      | .ok true =>
        if truthy (pyGet message_data "sns_id") && !om.isEmpty then
          (send_retry_message cfg sendOk om (pyAdd1 (pyGet om "retry_cnt"))).1
        else []
      | _ => []
  | _ => []

/-- Forward-set entry this message contributes. -/
def eventOf (now : Int) : Triple → Option Dict
  | (message_data, some om, _) =>
    if om.isEmpty then none else process_message now message_data (some om)
  | _ => none

/-- Receipt handle this message contributes to receipt_handles. -/
def handleOf : Triple → Option String
  | (_, some om, rh) => if om.isEmpty then none else some rh
  | _ => none

/-- The body of the per-message loop for one triple, factored out of
processLoop: the second component is true when this message raises. -/
def loopStep (cfg : Config) (now : Int) (qname : String) (sendOk : Dict → Bool)
    (t : Triple) (acc : Acc) : Acc × Bool :=
  match t with
  | (message_data, original_message, rh) =>
    match original_message with
    | none => (acc, false)
    | some om =>
      if om.isEmpty then (acc, false)
      else
        match (if should_retry message_data qname then
                 pyLtInt (pyGet om "retry_cnt") cfg.max_retry_cnt
               else Except.ok false) with
        | .error _ => (acc, true)
        | .ok underCeiling =>
          let acc1 :=
            if underCeiling && truthy (pyGet message_data "sns_id") && !om.isEmpty then
              { acc with retries := acc.retries ++
                  (send_retry_message cfg sendOk om (pyAdd1 (pyGet om "retry_cnt"))).1 }
            else acc
          let acc2 :=
            match process_message now message_data (some om) with
            | some e => { acc1 with processed := acc1.processed ++ [e],
                                    handles := acc1.handles ++ [rh] }
            | none => { acc1 with handles := acc1.handles ++ [rh] }
          (acc2, false)

/-! Scheduler loop and signal handling (app.py lines 388-431). -/

/-- Process-level state of the scheduler: the running flag written by
stop(), whether the process has exited, and how many cycle pairs were
started and finished. -/
structure ProcState where
  running : Bool
  exited : Bool
  cyclesStarted : Nat
  cyclesFinished : Nat

/-- stop (app.py lines 410-413). -/
def stop (s : ProcState) : ProcState := { s with running := false }

/-- signal_handler (app.py lines 416-420): calls processor.stop() and then
sys.exit(0).  sys.exit raises SystemExit in the main thread — inside the
asyncio event loop that asyncio.run is driving — so the process exits at
once and any in-flight cycle is cancelled, not finished. -/
def signal_handler (s : ProcState) : ProcState :=
  { stop s with exited := true }

/-- External behaviour during one turn of the while loop: either no
shutdown signal arrives and the gathered cycle pair runs to completion, or
a shutdown signal arrives while the cycles are in flight. -/
inductive CycleEv where
  | quiet
  | sigDuring

/-- One turn of the while loop in run_async (app.py lines 392-404): if the
process already exited or the running flag is false, nothing more runs;
otherwise a cycle pair starts, and it finishes unless a shutdown signal
arrives mid-flight, in which case signal_handler runs and the in-flight
cycle is aborted by the propagating SystemExit. -/
def runStep (s : ProcState) (e : CycleEv) : ProcState :=
  if s.exited || !s.running then s
  else
    let s1 := { s with cyclesStarted := s.cyclesStarted + 1 }
    match e with
    | .quiet => { s1 with cyclesFinished := s1.cyclesFinished + 1 }
    | .sigDuring => signal_handler s1

/-- run_async (app.py lines 388-404) over a finite schedule of external
events. -/
def run_async (s : ProcState) (evs : List CycleEv) : ProcState :=
  evs.foldl runStep s

/-- Initial state right after main registers the handlers and starts the
processor. -/
def initState : ProcState :=
  { running := true, exited := false, cyclesStarted := 0, cyclesFinished := 0 }

/-! Concrete fixtures used by witnesses and counterexamples. -/

/-- A lookup service that answers every id with a well-formed success
envelope whose first data element is a full original request with
retry_cnt 1. -/
def okOracle : String → HttpResult := fun _ =>
  .resp 200 (some (.obj [("success", .bool true),
    ("data", .arr [.obj [("transaction_id", .str "t1"), ("retry_cnt", .num 1),
      ("token", .str "tok"), ("ap_id", .str "a1"),
      ("payload", .obj [("k", .str "v")])]])]))

/-- A lookup service whose original request lacks retry_cnt. -/
def noRcOracle : String → HttpResult := fun _ =>
  .resp 200 (some (.obj [("success", .bool true),
    ("data", .arr [.obj [("transaction_id", .str "t1")]])]))

/-- A lookup service whose original request has retry_cnt 0. -/
def rc0Oracle : String → HttpResult := fun _ =>
  .resp 200 (some (.obj [("success", .bool true),
    ("data", .arr [.obj [("transaction_id", .str "t1"), ("retry_cnt", .num 0),
      ("token", .str "tok"), ("ap_id", .str "a1"),
      ("payload", .obj [("k", .str "v")])]])]))

/-- Default configuration: MAX_RETRY_COUNT 3, a configured push queue. -/
def cfg3 : Config := { max_retry_cnt := 3, push_queue_url := "push-q" }

/-- A fully valid FAILURE report. -/
def bodyValid : Dict :=
  [("sns_id", .str "s1"), ("delivery_status", .str "FAILURE"),
   ("provider_response", .str ""), ("timestamp", .num 1000)]

/-- A fully valid SUCCESS report. -/
def bodyGood : Dict :=
  [("sns_id", .str "s1"), ("delivery_status", .str "SUCCESS"),
   ("provider_response", .str ""), ("timestamp", .num 5)]

/-- A report with a present but empty sns_id, otherwise a valid FAILURE
report. -/
def bodyEmptySns : Dict :=
  [("sns_id", .str ""), ("delivery_status", .str "FAILURE"),
   ("provider_response", .str ""), ("timestamp", .num 1000)]

/-- A structurally invalid report: timestamp is missing. -/
def bodyBad : Dict :=
  [("sns_id", .str "s2"), ("delivery_status", .str "SUCCESS"),
   ("provider_response", .str "")]

/-- A report missing the required sns_id field. -/
def bodyNoSns : Dict :=
  [("delivery_status", .str "SUCCESS"), ("provider_response", .str ""),
   ("timestamp", .num 5)]

/-- The original request of the worked example in the specification. -/
def exOrig : Dict :=
  [("transaction_id", .str "t1"), ("retry_cnt", .num 1), ("token", .str "tok"),
   ("payload", .obj [("k", .str "v")])]

/-! Helper lemmas about the embedded operations. -/

theorem dictFind_dictSet_self (d : Dict) (k : String) (v : JVal) :
    dictFind (dictSet d k v) k = some v := by
  induction d with
  | nil => simp [dictSet, dictFind]
  | cons p rest ih =>
    obtain ⟨k', v'⟩ := p
    by_cases h : k' = k
    · simp [dictSet, dictFind, h]
    · simp [dictSet, dictFind, h, ih]

theorem dictFind_dictSet_ne (d : Dict) (k : String) (v : JVal) (k2 : String)
    (h : k2 ≠ k) : dictFind (dictSet d k v) k2 = dictFind d k2 := by
  induction d with
  | nil => simp [dictSet, dictFind, Ne.symm h]
  | cons p rest ih =>
    obtain ⟨k', v'⟩ := p
    by_cases hk : k' = k
    · subst hk
      simp [dictSet, dictFind, Ne.symm h]
    · by_cases hk2 : k' = k2
      · subst hk2
        simp [dictSet, dictFind, hk]
      · simp [dictSet, dictFind, hk, hk2, ih]

theorem processLoop_cons (cfg : Config) (now : Int) (qname : String) (sendOk : Dict → Bool)
    (t : Triple) (l : List Triple) (acc : Acc) :
    processLoop cfg now qname sendOk (t :: l) acc =
      match loopStep cfg now qname sendOk t acc with
      | (a, true) => (a, true)
      | (a, false) => processLoop cfg now qname sendOk l a := by
  obtain ⟨md, om, rh⟩ := t
  match om with
  | none => rfl
  | some d =>
    by_cases hd : d.isEmpty
    · simp [processLoop, loopStep, hd]
    · rcases hlt : (if should_retry md qname then
          pyLtInt (pyGet d "retry_cnt") cfg.max_retry_cnt
        else Except.ok false) with e | u
      · simp [processLoop, loopStep, hd, hlt]
      · simp [processLoop, loopStep, hd, hlt]

/-- A triple whose lookup result is falsy (None or the empty dict) is
skipped by the loop: the batch behaves as if it were absent. -/
theorem processLoop_skip_mid (cfg : Config) (now : Int) (qname : String)
    (sendOk : Dict → Bool) (pre post : List Triple) (md : Dict) (rh : String)
    (om : Option Dict) (hskip : origTruthy om = false) (acc : Acc) :
    processLoop cfg now qname sendOk (pre ++ (md, om, rh) :: post) acc =
      processLoop cfg now qname sendOk (pre ++ post) acc := by
  induction pre generalizing acc with
  | nil =>
    match om, hskip with
    | none, _ => rfl
    | some d, hskip =>
      have hd : d.isEmpty = true := by simpa [origTruthy] using hskip
      simp [processLoop, hd]
  | cons t pre ih =>
    rw [List.cons_append, List.cons_append, processLoop_cons, processLoop_cons]
    rcases hls : loopStep cfg now qname sendOk t acc with ⟨a, r⟩
    rcases r
    · simp [ih]
    · simp

theorem bodiesOf_append (l1 l2 : List SqsMessage) :
    bodiesOf (l1 ++ l2) =
      match bodiesOf l1, bodiesOf l2 with
      | some a, some b => some (a ++ b)
      | _, _ => none := by
  induction l1 with
  | nil =>
    rcases h2 : bodiesOf l2 <;> simp [bodiesOf, h2]
  | cons m rest ih =>
    rcases hb : m.body with _ | b <;>
      rcases hr : bodiesOf rest with _ | bs <;>
        rcases h2 : bodiesOf l2 with _ | cs <;>
          simp_all [bodiesOf]

theorem bodiesOf_length (l : List SqsMessage) (bs : List Dict)
    (h : bodiesOf l = some bs) : bs.length = l.length := by
  induction l generalizing bs with
  | nil => simp [bodiesOf] at h; subst h; rfl
  | cons m rest ih =>
    rcases hb : m.body with _ | b <;> rcases hr : bodiesOf rest with _ | tail <;>
      simp [bodiesOf, hb, hr] at h
    subst h
    simp [ih tail hr]

theorem cycleTriples_append (oracle : String → HttpResult)
    (msgs1 msgs2 : List SqsMessage) (bodies1 bodies2 : List Dict)
    (hlen : bodies1.length = msgs1.length) :
    cycleTriples oracle (msgs1 ++ msgs2) (bodies1 ++ bodies2) =
      cycleTriples oracle msgs1 bodies1 ++ cycleTriples oracle msgs2 bodies2 := by
  induction msgs1 generalizing bodies1 with
  | nil =>
    rcases bodies1 with _ | ⟨b, bs⟩
    · simp [cycleTriples]
    · simp at hlen
  | cons m rest ih =>
    rcases bodies1 with _ | ⟨b, bs⟩
    · simp at hlen
    · simp only [List.length_cons, Nat.succ.injEq] at hlen
      simp [cycleTriples, ih bs hlen]

theorem handleOf_of_origTruthy (t : Triple) (h : origTruthy t.2.1 = true) :
    handleOf t = some t.2.2 := by
  obtain ⟨md, om, rh⟩ := t
  match om, h with
  | some d, h =>
    have hd : d.isEmpty = false := by simpa [origTruthy] using h
    simp [handleOf, hd]

theorem loopStep_handles_sub (cfg : Config) (now : Int) (qname : String)
    (sendOk : Dict → Bool) (t : Triple) (acc : Acc) :
    ∀ h ∈ (loopStep cfg now qname sendOk t acc).1.handles,
      h ∈ acc.handles ∨ h = t.2.2 := by
  obtain ⟨md, om, rh⟩ := t
  match om with
  | none => exact fun h hh => Or.inl hh
  | some d =>
    by_cases hd : d.isEmpty
    · simp only [loopStep, hd, if_true]
      exact fun h hh => Or.inl hh
    · rcases hlt : (if should_retry md qname then
          pyLtInt (pyGet d "retry_cnt") cfg.max_retry_cnt
        else Except.ok false) with e | u
      · simp only [loopStep, hd, hlt, if_false, Bool.not_true]
        exact fun h hh => Or.inl hh
      · have hres : (loopStep cfg now qname sendOk (md, some d, rh) acc).1.handles =
            acc.handles ++ [rh] := by
          simp only [loopStep, hd, hlt]
          rcases hpm : process_message now md (some d) with _ | ev <;>
            simp [hpm] <;> split <;> rfl
        rw [hres]
        intro h hh
        rcases List.mem_append.mp hh with h1 | h1
        · exact Or.inl h1
        · simp only [List.mem_singleton] at h1
          exact Or.inr h1

theorem processLoop_handles_sub (cfg : Config) (now : Int) (qname : String)
    (sendOk : Dict → Bool) (l : List Triple) (acc : Acc) :
    ∀ h ∈ (processLoop cfg now qname sendOk l acc).1.handles,
      h ∈ acc.handles ∨ h ∈ l.map (fun t => t.2.2) := by
  induction l generalizing acc with
  | nil => simp [processLoop]
  | cons t rest ih =>
    rw [processLoop_cons]
    rcases hls : loopStep cfg now qname sendOk t acc with ⟨a, r⟩
    have hstep := loopStep_handles_sub cfg now qname sendOk t acc
    rw [hls] at hstep
    rcases r
    · intro h hh
      rcases ih a h hh with h1 | h2
      · rcases hstep h h1 with h3 | h3
        · exact Or.inl h3
        · exact Or.inr (by simp [h3])
      · exact Or.inr (by simp [h2])
    · intro h hh
      rcases hstep h hh with h1 | h1
      · exact Or.inl h1
      · exact Or.inr (by simp [h1])

theorem cycleTriples_handles (oracle : String → HttpResult)
    (msgs : List SqsMessage) (bodies : List Dict) :
    ∀ h ∈ (cycleTriples oracle msgs bodies).map (fun t => t.2.2),
      h ∈ msgs.map (fun m => m.receiptHandle) := by
  induction msgs generalizing bodies with
  | nil => simp [cycleTriples]
  | cons m rest ih =>
    rcases bodies with _ | ⟨b, bs⟩
    · simp [cycleTriples]
    · intro h hh
      simp only [cycleTriples, List.map_cons, List.mem_cons] at hh
      rcases hh with hh | hh
      · simp [hh]
      · simp [ih bs h hh]

/-- Whatever happens in a cycle, every deleted receipt handle belongs to a
message of the received batch. -/
theorem poll_queue_acked_sub (cfg : Config) (now : Int) (qname : String)
    (oracle : String → HttpResult) (sendOk : Dict → Bool)
    (msgs : List SqsMessage) (fOk : Bool) :
    ∀ h ∈ (poll_queue cfg now qname oracle sendOk msgs fOk).acked,
      h ∈ msgs.map (fun m => m.receiptHandle) := by
  unfold poll_queue
  rcases hbs : bodiesOf msgs with _ | bs
  · simp
  · dsimp only
    rcases hpl : processLoop cfg now qname sendOk (cycleTriples oracle msgs bs)
        { retries := [], processed := [], handles := [] } with ⟨acc, r⟩
    have hsub := processLoop_handles_sub cfg now qname sendOk
      (cycleTriples oracle msgs bs) { retries := [], processed := [], handles := [] }
    rw [hpl] at hsub
    have hacc : ∀ h ∈ acc.handles, h ∈ msgs.map (fun m => m.receiptHandle) := by
      intro h hh
      rcases hsub h hh with h1 | h1
      · simp at h1
      · exact cycleTriples_handles oracle msgs bs h h1
    rcases r
    · dsimp only
      intro h hh
      apply hacc
      by_cases hemp : acc.processed.isEmpty
      · simpa [hemp] using hh
      · rcases fOk
        · simp [hemp] at hh
        · simpa [hemp] using hh
    · dsimp only
      intro h hh
      simp at hh

/-- When no message of the batch raises, the loop computes exactly the
per-message contributions, in order, appended to the accumulator. -/
theorem processLoop_ok (cfg : Config) (now : Int) (qname : String) (sendOk : Dict → Bool)
    (l : List Triple) (acc : Acc)
    (h : ∀ t ∈ l, raisePred cfg qname t = false) :
    processLoop cfg now qname sendOk l acc =
      ({ retries := acc.retries ++ l.flatMap (retryOf cfg qname sendOk),
         processed := acc.processed ++ l.filterMap (eventOf now),
         handles := acc.handles ++ l.filterMap handleOf }, false) := by
  induction l generalizing acc with
  | nil => simp [processLoop]
  | cons t rest ih =>
    obtain ⟨message_data, om, rh⟩ := t
    have hrest : ∀ t ∈ rest, raisePred cfg qname t = false :=
      fun t ht => h t (List.mem_cons_of_mem _ ht)
    have hhead := h _ (List.mem_cons_self _ _)
    match om with
    | none =>
      rw [show processLoop cfg now qname sendOk ((message_data, none, rh) :: rest) acc =
            processLoop cfg now qname sendOk rest acc from rfl, ih _ hrest]
      simp [retryOf, eventOf, handleOf]
    | some d =>
      by_cases hd : d.isEmpty
      · have : processLoop cfg now qname sendOk ((message_data, some d, rh) :: rest) acc =
            processLoop cfg now qname sendOk rest acc := by
          simp [processLoop, hd]
        rw [this, ih _ hrest]
        simp [retryOf, eventOf, handleOf, hd]
      · simp only [raisePred, hd, Bool.not_false, Bool.true_and] at hhead
        rcases hsr : should_retry message_data qname with _ | _
        · -- retry branch not taken: the match scrutinee is ok false
          have : processLoop cfg now qname sendOk ((message_data, some d, rh) :: rest) acc =
              processLoop cfg now qname sendOk rest
                (match process_message now message_data (some d) with
                 | some e => { acc with processed := acc.processed ++ [e],
                                        handles := acc.handles ++ [rh] }
                 | none => { acc with handles := acc.handles ++ [rh] }) := by
            simp [processLoop, hd, hsr]
          rw [this]
          rcases hpm : process_message now message_data (some d) with _ | e
          · simp only [hpm]
            rw [ih _ hrest]
            simp [retryOf, eventOf, handleOf, hd, hsr, hpm]
          · simp only [hpm]
            rw [ih _ hrest]
            simp [retryOf, eventOf, handleOf, hd, hsr, hpm]
        · -- retry branch taken; by hhead the comparison does not raise
          rw [hsr] at hhead
          simp only [Bool.true_and] at hhead
          rcases hlt : pyLtInt (pyGet d "retry_cnt") cfg.max_retry_cnt with e | under
          · rw [hlt] at hhead; simp at hhead
          · have : processLoop cfg now qname sendOk ((message_data, some d, rh) :: rest) acc =
                processLoop cfg now qname sendOk rest
                  (let acc1 :=
                    if under && truthy (pyGet message_data "sns_id") && !d.isEmpty then
                      { acc with retries := acc.retries ++
                          (send_retry_message cfg sendOk d (pyAdd1 (pyGet d "retry_cnt"))).1 }
                    else acc
                   match process_message now message_data (some d) with
                   | some e => { acc1 with processed := acc1.processed ++ [e],
                                           handles := acc1.handles ++ [rh] }
                   | none => { acc1 with handles := acc1.handles ++ [rh] }) := by
              simp [processLoop, hd, hsr, hlt]
            rw [this]
            rcases hu : under
            · simp only [Bool.false_and, if_false]
              rcases hpm : process_message now message_data (some d) with _ | e
              all_goals
                simp only [hpm]
                rw [ih _ hrest]
                simp [retryOf, eventOf, handleOf, hd, hsr, hlt, hpm, hu]
            · by_cases hsid : truthy (pyGet message_data "sns_id")
              all_goals
                rcases hpm : process_message now message_data (some d) with _ | e
                all_goals
                  simp only [hsid, hpm, hd, Bool.true_and, Bool.and_true, Bool.not_false,
                    Bool.and_false, Bool.false_and, if_true, if_false]
                  rw [ih _ hrest]
                  simp [retryOf, eventOf, handleOf, hd, hsr, hlt, hpm, hsid, hu]

/-- If some message of the batch satisfies raisePred, the loop raises. -/
theorem processLoop_raises (cfg : Config) (now : Int) (qname : String) (sendOk : Dict → Bool)
    (l : List Triple) (acc : Acc)
    (h : ∃ t ∈ l, raisePred cfg qname t = true) :
    (processLoop cfg now qname sendOk l acc).2 = true := by
  induction l generalizing acc with
  | nil => simp at h
  | cons t rest ih =>
    obtain ⟨message_data, om, rh⟩ := t
    rcases h with ⟨u, hu, hru⟩
    rcases List.mem_cons.mp hu with heq | hmem
    · subst heq
      match om, hru with
      | some d, hru =>
        simp only [raisePred] at hru
        have hd : d.isEmpty = false := by
          rcases hde : d.isEmpty
          · rfl
          · rw [hde] at hru; simp at hru
        rw [hd] at hru
        simp only [Bool.not_false, Bool.true_and, Bool.and_eq_true] at hru
        obtain ⟨hsr, herr⟩ := hru
        rcases hlt : pyLtInt (pyGet d "retry_cnt") cfg.max_retry_cnt with e | b
        · simp [processLoop, hd, hsr, hlt]
        · rw [hlt] at herr; simp at herr
    · -- the raising message is in the tail: every head branch either raises
      -- immediately or recurses into the tail
      have htail : ∃ t ∈ rest, raisePred cfg qname t = true := ⟨u, hmem, hru⟩
      match om with
      | none => exact ih acc htail
      | some d =>
        by_cases hd : d.isEmpty
        · rw [show processLoop cfg now qname sendOk ((message_data, some d, rh) :: rest) acc =
              processLoop cfg now qname sendOk rest acc by simp [processLoop, hd]]
          exact ih _ htail
        · rcases hsr : should_retry message_data qname
          · rw [show processLoop cfg now qname sendOk ((message_data, some d, rh) :: rest) acc =
                processLoop cfg now qname sendOk rest
                  (match process_message now message_data (some d) with
                   | some e => { acc with processed := acc.processed ++ [e],
                                          handles := acc.handles ++ [rh] }
                   | none => { acc with handles := acc.handles ++ [rh] }) by
                simp [processLoop, hd, hsr]]
            exact ih _ htail
          · rcases hlt : pyLtInt (pyGet d "retry_cnt") cfg.max_retry_cnt with e | under
            · simp [processLoop, hd, hsr, hlt]
            · rw [show processLoop cfg now qname sendOk ((message_data, some d, rh) :: rest) acc =
                  processLoop cfg now qname sendOk rest
                    (let acc1 :=
                      if under && truthy (pyGet message_data "sns_id") && !d.isEmpty then
                        { acc with retries := acc.retries ++
                            (send_retry_message cfg sendOk d (pyAdd1 (pyGet d "retry_cnt"))).1 }
                      else acc
                     match process_message now message_data (some d) with
                     | some e => { acc1 with processed := acc1.processed ++ [e],
                                             handles := acc1.handles ++ [rh] }
                     | none => { acc1 with handles := acc1.handles ++ [rh] }) by
                  simp [processLoop, hd, hsr, hlt]]
              exact ih _ htail

/-- Cycle outcome when every body parses and no message raises: the retry
attempts, the forward set and the receipt handles are the per-message
contributions in batch order; the forward set is submitted exactly when
non-empty; the handles are deleted exactly when the forward set is empty
or the forward submission succeeded. -/
theorem poll_queue_ok (cfg : Config) (now : Int) (qname : String)
    (oracle : String → HttpResult) (sendOk : Dict → Bool)
    (messages : List SqsMessage) (forwardOk : Bool) (bodies : List Dict)
    (hparse : bodiesOf messages = some bodies)
    (hok : ∀ t ∈ cycleTriples oracle messages bodies, raisePred cfg qname t = false) :
    poll_queue cfg now qname oracle sendOk messages forwardOk =
      { retries := (cycleTriples oracle messages bodies).flatMap (retryOf cfg qname sendOk),
        forwardSet := (cycleTriples oracle messages bodies).filterMap (eventOf now),
        submitted := !((cycleTriples oracle messages bodies).filterMap (eventOf now)).isEmpty,
        acked :=
          if ((cycleTriples oracle messages bodies).filterMap (eventOf now)).isEmpty
            || forwardOk then
            (cycleTriples oracle messages bodies).filterMap handleOf
          else [],
        aborted := false } := by
  unfold poll_queue
  rw [hparse]
  dsimp only
  rw [processLoop_ok cfg now qname sendOk _ _ hok]
  dsimp only
  rcases he : ((cycleTriples oracle messages bodies).filterMap (eventOf now)).isEmpty
  · rcases hf : forwardOk
    all_goals simp [he, hf]
  · simp [he]

/-- Cycle outcome when every body parses but some message raises at the
retry-count comparison: the batch is abandoned — nothing is submitted to
the forwarder and no receipt handle is deleted. -/
theorem poll_queue_raises (cfg : Config) (now : Int) (qname : String)
    (oracle : String → HttpResult) (sendOk : Dict → Bool)
    (messages : List SqsMessage) (forwardOk : Bool) (bodies : List Dict)
    (hparse : bodiesOf messages = some bodies)
    (hbad : ∃ t ∈ cycleTriples oracle messages bodies, raisePred cfg qname t = true) :
    (poll_queue cfg now qname oracle sendOk messages forwardOk).aborted = true ∧
    (poll_queue cfg now qname oracle sendOk messages forwardOk).acked = [] ∧
    (poll_queue cfg now qname oracle sendOk messages forwardOk).submitted = false ∧
    (poll_queue cfg now qname oracle sendOk messages forwardOk).forwardSet = [] := by
  have hr := processLoop_raises cfg now qname sendOk
    (cycleTriples oracle messages bodies)
    { retries := [], processed := [], handles := [] } hbad
  rcases hpl : processLoop cfg now qname sendOk (cycleTriples oracle messages bodies)
      { retries := [], processed := [], handles := [] } with ⟨acc, raised⟩
  rw [hpl] at hr
  simp only at hr
  subst hr
  unfold poll_queue
  rw [hparse]
  dsimp only
  rw [hpl]
  simp

theorem eventOf_isSome_origTruthy (now : Int) (t : Triple)
    (h : (eventOf now t).isSome = true) : origTruthy t.2.1 = true := by
  obtain ⟨md, om, rh⟩ := t
  match om with
  | none => simp [eventOf] at h
  | some d =>
    by_cases hd : d.isEmpty
    · simp [eventOf, hd] at h
    · simp [origTruthy, hd]

theorem eventOf_none_of_invalid (now : Int) (t : Triple)
    (hreq : requiredOk t.1 = false) : eventOf now t = none := by
  obtain ⟨md, om, rh⟩ := t
  match om with
  | none => rfl
  | some d =>
    by_cases hd : d.isEmpty
    · simp [eventOf, hd]
    · simp [eventOf, hd, process_message, hreq]

/-! Claim theorems. -/

/-- Claim C7: every message received from the dead-letter source (polled
under the queue name DLQ by run_async) has shouldRetry true regardless of
its delivery_status; a message from the primary source (queue name
StatusUpdateQueue) has shouldRetry true exactly when its delivery_status
equals FAILURE. -/
theorem C7_should_retry_by_source (message_data : Dict) :
    should_retry message_data "DLQ" = true ∧
    should_retry message_data "StatusUpdateQueue" =
      pyEqStr (pyGet message_data "delivery_status") "FAILURE" := by
  constructor
  · simp [should_retry]
  · simp [should_retry]

/-- Claim C8: for every StatusReport that passes field validation and has
a successful lookup, the ReconciledEvent is the OriginalRequest merged
with the status outcome: status is the delivery_status of the report,
delivered_ts and created_at are the processing time, sns_id comes from
the report, apid from the original ap_id, and every other OriginalRequest
field is carried over unchanged. -/
theorem C8_reconciled_event_merge (now : Int) (message_data : Dict) (om : Dict)
    (hreq : requiredOk message_data = true) :
    ∃ e, process_message now message_data (some om) = some e ∧
      dictFind e "status" = some (pyGet message_data "delivery_status") ∧
      dictFind e "delivered_ts" = some (.num now) ∧
      dictFind e "created_at" = some (.num now) ∧
      dictFind e "sns_id" = some (pyGet message_data "sns_id") ∧
      dictFind e "apid" = some (pyGetD om "ap_id" (.str "")) ∧
      ∀ k, k ∉ ["sns_id", "status", "delivered_ts", "created_at", "apid"] →
        dictFind e k = dictFind om k := by
  have hpm : process_message now message_data (some om) =
      some (dictSet (dictSet (dictSet (dictSet (dictSet om
        "sns_id" (pyGet message_data "sns_id"))
        "status" (pyGet message_data "delivery_status"))
        "delivered_ts" (.num now))
        "created_at" (.num now))
        "apid" (pyGetD om "ap_id" (.str ""))) := by
    simp [process_message, hreq]
  refine ⟨_, hpm, ?_, ?_, ?_, ?_, ?_, ?_⟩
  · rw [dictFind_dictSet_ne _ _ _ _ (by decide), dictFind_dictSet_ne _ _ _ _ (by decide),
      dictFind_dictSet_ne _ _ _ _ (by decide), dictFind_dictSet_self]
  · rw [dictFind_dictSet_ne _ _ _ _ (by decide), dictFind_dictSet_ne _ _ _ _ (by decide),
      dictFind_dictSet_self]
  · rw [dictFind_dictSet_ne _ _ _ _ (by decide), dictFind_dictSet_self]
  · rw [dictFind_dictSet_ne _ _ _ _ (by decide), dictFind_dictSet_ne _ _ _ _ (by decide),
      dictFind_dictSet_ne _ _ _ _ (by decide), dictFind_dictSet_ne _ _ _ _ (by decide),
      dictFind_dictSet_self]
  · rw [dictFind_dictSet_self]
  · intro k hk
    simp only [List.mem_cons, List.not_mem_nil, or_false, not_or] at hk
    obtain ⟨h1, h2, h3, h4, h5⟩ := hk
    rw [dictFind_dictSet_ne _ _ _ _ h5, dictFind_dictSet_ne _ _ _ _ h4,
      dictFind_dictSet_ne _ _ _ _ h3, dictFind_dictSet_ne _ _ _ _ h2,
      dictFind_dictSet_ne _ _ _ _ h1]

/-- Witness for C8 at the worked example in the specification: a FAILURE
report merged with the original request t1 yields an event with
transaction_id t1, status FAILURE, token tok, the payload, and both
timestamps set to the processing time. -/
theorem C8_witness :
    ∃ e, process_message 1700 bodyValid (some exOrig) = some e ∧
      dictFind e "transaction_id" = some (.str "t1") ∧
      dictFind e "token" = some (.str "tok") ∧
      dictFind e "payload" = some (.obj [("k", .str "v")]) ∧
      dictFind e "status" = some (.str "FAILURE") ∧
      dictFind e "delivered_ts" = some (.num 1700) ∧
      dictFind e "created_at" = some (.num 1700) := by
  obtain ⟨e, he, hst, hdel, hcr, _, _, hrest⟩ :=
    C8_reconciled_event_merge 1700 bodyValid exOrig (by rfl)
  refine ⟨e, he, ?_, ?_, ?_, ?_, hdel, hcr⟩
  · rw [hrest "transaction_id" (by decide)]; rfl
  · rw [hrest "token" (by decide)]; rfl
  · rw [hrest "payload" (by decide)]; rfl
  · rw [hst]; rfl

/-- Claim C10: the correlation lookup is total — a raised network call, a
non-200 status, an unparsable body, a falsy success, and an empty data
list all yield None without propagating an exception (the embedding is a
total function, every raising Python branch mapping to None), and a
well-formed success envelope yields the first element of data. -/
theorem C10_lookup_totality :
    query_original_message .exn = none ∧
    (∀ status body, status ≠ 200 → query_original_message (.resp status body) = none) ∧
    query_original_message (.resp 200 none) = none ∧
    (∀ fields, truthy (pyGet fields "success") = false →
      query_original_message (.resp 200 (some (.obj fields))) = none) ∧
    (∀ fields, pyGet fields "data" = .arr [] →
      query_original_message (.resp 200 (some (.obj fields))) = none) ∧
    (∀ fields om rest, truthy (pyGet fields "success") = true →
      pyGet fields "data" = .arr (.obj om :: rest) →
      query_original_message (.resp 200 (some (.obj fields))) = some om) := by
  refine ⟨rfl, ?_, rfl, ?_, ?_, ?_⟩
  · intro status body h
    simp [query_original_message, h]
  · intro fields h
    simp [query_original_message, h]
  · intro fields h
    have hdt : truthy (pyGet fields "data") = false := by rw [h]; rfl
    simp [query_original_message, hdt]
  · intro fields om rest hs hd
    have hdt : truthy (pyGet fields "data") = true := by rw [hd]; rfl
    simp [query_original_message, hs, hdt, hd]
    rfl

/-- Witness for C10: a 500 response yields None, and a well-formed
success envelope yields its first data element. -/
theorem C10_witness :
    query_original_message (.resp 500 (some (.obj []))) = none ∧
    query_original_message (.resp 200 (some (.obj
      [("success", .bool true),
       ("data", .arr [.obj [("transaction_id", .str "t1")]])]))) =
      some [("transaction_id", .str "t1")] := by
  constructor
  · exact C10_lookup_totality.2.1 500 _ (by decide)
  · exact C10_lookup_totality.2.2.2.2.2 _ _ _ (by rfl) (by rfl)

/-- Claim C3 (evidence of the code defect): signal_handler calls stop()
and then sys.exit(0), so a shutdown signal arriving while a cycle pair is
in flight terminates the process with that cycle aborted — one cycle
started, zero finished — rather than letting it finish; afterwards no
further cycle starts. -/
theorem C3_signal_exits_midcycle :
    run_async initState [.sigDuring] =
      { running := false, exited := true, cyclesStarted := 1, cyclesFinished := 0 } ∧
    run_async initState [.quiet, .sigDuring, .quiet] =
      { running := false, exited := true, cyclesStarted := 2, cyclesFinished := 1 } := by
  constructor <;> rfl

/-- Claim C1: for a cycle whose forward set is non-empty and whose loop
completes, acknowledgment of the forward-eligible leases is all-or-nothing
with respect to the forward outcome: on failure no receipt handle at all
is deleted; on success, the receipt handle of every message that
contributed a forward-set entry is deleted. -/
theorem C1_ack_all_or_nothing (cfg : Config) (now : Int) (qname : String)
    (oracle : String → HttpResult) (sendOk : Dict → Bool)
    (messages : List SqsMessage) (forwardOk : Bool) (bodies : List Dict)
    (hparse : bodiesOf messages = some bodies)
    (hok : ∀ t ∈ cycleTriples oracle messages bodies, raisePred cfg qname t = false)
    (hne : ((cycleTriples oracle messages bodies).filterMap (eventOf now)).isEmpty = false) :
    (forwardOk = false →
      (poll_queue cfg now qname oracle sendOk messages forwardOk).acked = []) ∧
    (forwardOk = true →
      ∀ t ∈ cycleTriples oracle messages bodies, (eventOf now t).isSome = true →
        t.2.2 ∈ (poll_queue cfg now qname oracle sendOk messages forwardOk).acked) := by
  rw [poll_queue_ok cfg now qname oracle sendOk messages forwardOk bodies hparse hok]
  constructor
  · intro hf
    subst hf
    simp [hne]
  · intro hf t ht hev
    subst hf
    have htr := eventOf_isSome_origTruthy now t hev
    have hin : t.2.2 ∈ (cycleTriples oracle messages bodies).filterMap handleOf :=
      List.mem_filterMap.mpr ⟨t, ht, handleOf_of_origTruthy t htr⟩
    simpa [hne] using hin

/-- Witness for C1: a valid FAILURE report whose lookup succeeds, with a
successful forward submission: its receipt handle is deleted. -/
theorem C1_witness :
    "rh0" ∈ (poll_queue cfg3 1000 "StatusUpdateQueue" okOracle (fun _ => true)
      [{ body := some bodyValid, receiptHandle := "rh0" }] true).acked :=
  (C1_ack_all_or_nothing cfg3 1000 "StatusUpdateQueue" okOracle (fun _ => true)
      [{ body := some bodyValid, receiptHandle := "rh0" }] true [bodyValid]
      rfl (by decide) rfl).2 rfl
    (bodyValid, lookupFor okOracle (pyGet bodyValid "sns_id"), "rh0")
    (List.mem_singleton.mpr rfl) rfl

/-- Claim C9: if some message of the batch has a truthy lookup result,
shouldRetry true and a retry_cnt that is missing or null (both read back
as None), the comparison with the retry ceiling raises a TypeError and
the whole batch is abandoned: nothing is forwarded and no receipt handle
is deleted; conversely, when every looked-up request carries an integer
retry_cnt ≥ 0 wherever the retry branch runs, that error branch is
unreachable and the cycle completes. -/
theorem C9_retry_cnt_type_error (cfg : Config) (now : Int) (qname : String)
    (oracle : String → HttpResult) (sendOk : Dict → Bool)
    (messages : List SqsMessage) (forwardOk : Bool) (bodies : List Dict)
    (hparse : bodiesOf messages = some bodies) :
    ((∃ t ∈ cycleTriples oracle messages bodies, ∃ om : Dict, t.2.1 = some om ∧
        om.isEmpty = false ∧ should_retry t.1 qname = true ∧
        pyGet om "retry_cnt" = .null) →
      (poll_queue cfg now qname oracle sendOk messages forwardOk).aborted = true ∧
      (poll_queue cfg now qname oracle sendOk messages forwardOk).acked = [] ∧
      (poll_queue cfg now qname oracle sendOk messages forwardOk).submitted = false ∧
      (poll_queue cfg now qname oracle sendOk messages forwardOk).forwardSet = []) ∧
    ((∀ t ∈ cycleTriples oracle messages bodies, ∀ om : Dict, t.2.1 = some om →
        om.isEmpty = false → should_retry t.1 qname = true →
        ∃ n : Int, 0 ≤ n ∧ pyGet om "retry_cnt" = .num n) →
      (poll_queue cfg now qname oracle sendOk messages forwardOk).aborted = false) := by
  constructor
  · rintro ⟨t, ht, om, hom, hne, hsr, hnull⟩
    apply poll_queue_raises cfg now qname oracle sendOk messages forwardOk bodies hparse
    refine ⟨t, ht, ?_⟩
    obtain ⟨md, om2, rh⟩ := t
    simp only at hom hsr
    subst hom
    simp [raisePred, hne, hsr, hnull, pyLtInt]
  · intro hall
    have hnor : ∀ t ∈ cycleTriples oracle messages bodies, raisePred cfg qname t = false := by
      intro t ht
      obtain ⟨md, om2, rh⟩ := t
      match om2 with
      | none => rfl
      | some om =>
        by_cases hne : om.isEmpty
        · simp [raisePred, hne]
        · rcases hsr : should_retry md qname
          · simp [raisePred, hsr]
          · obtain ⟨n, _, hn⟩ :=
              hall (md, some om, rh) ht om rfl (by simpa using hne) hsr
            simp [raisePred, hne, hsr, hn, pyLtInt]
    rw [poll_queue_ok cfg now qname oracle sendOk messages forwardOk bodies hparse hnor]

/-- Witness for C9: a FAILURE report whose looked-up request lacks
retry_cnt abandons its batch with nothing acknowledged. -/
theorem C9_witness :
    (poll_queue cfg3 1000 "StatusUpdateQueue" noRcOracle (fun _ => true)
      [{ body := some bodyValid, receiptHandle := "rh0" }] true).aborted = true ∧
    (poll_queue cfg3 1000 "StatusUpdateQueue" noRcOracle (fun _ => true)
      [{ body := some bodyValid, receiptHandle := "rh0" }] true).acked = [] := by
  have h := (C9_retry_cnt_type_error cfg3 1000 "StatusUpdateQueue" noRcOracle
      (fun _ => true) [{ body := some bodyValid, receiptHandle := "rh0" }] true
      [bodyValid] rfl).1
    ⟨(bodyValid, some [("transaction_id", .str "t1")], "rh0"),
      List.mem_singleton.mpr rfl, [("transaction_id", .str "t1")], rfl, rfl, rfl, rfl⟩
  exact ⟨h.1, h.2.1⟩

/-- Claim C5: a message whose correlation lookup returns NotFound (None)
is skipped: the outcome of the cycle is exactly that of the batch without it —
no acknowledgment of its lease, no forward-set entry for it, no retry for
it — and, when its receipt handle is distinct from the other messages
handles, it is never deleted. -/
theorem C5_notfound_left_leased (cfg : Config) (now : Int) (qname : String)
    (oracle : String → HttpResult) (sendOk : Dict → Bool)
    (pre post : List SqsMessage) (forwardOk : Bool) (m : SqsMessage) (b : Dict)
    (hbody : m.body = some b)
    (hnf : lookupFor oracle (pyGet b "sns_id") = none) :
    poll_queue cfg now qname oracle sendOk (pre ++ m :: post) forwardOk =
      poll_queue cfg now qname oracle sendOk (pre ++ post) forwardOk ∧
    (m.receiptHandle ∉ (pre ++ post).map (fun x => x.receiptHandle) →
      m.receiptHandle ∉
        (poll_queue cfg now qname oracle sendOk (pre ++ m :: post) forwardOk).acked) := by
  have hskip : origTruthy (lookupFor oracle (pyGet b "sns_id")) = false := by
    rw [hnf]; rfl
  have heq : poll_queue cfg now qname oracle sendOk (pre ++ m :: post) forwardOk =
      poll_queue cfg now qname oracle sendOk (pre ++ post) forwardOk := by
    rcases hpre : bodiesOf pre with _ | a
    · have h1 : bodiesOf (pre ++ m :: post) = none := by
        rw [bodiesOf_append, hpre]
      have h2 : bodiesOf (pre ++ post) = none := by
        rw [bodiesOf_append, hpre]
      unfold poll_queue
      rw [h1, h2]
    · rcases hpost : bodiesOf post with _ | c
      · have h1 : bodiesOf (pre ++ m :: post) = none := by
          rw [bodiesOf_append, hpre]
          simp [bodiesOf, hbody, hpost]
        have h2 : bodiesOf (pre ++ post) = none := by
          rw [bodiesOf_append, hpre, hpost]
        unfold poll_queue
        rw [h1, h2]
      · have hbm : bodiesOf (pre ++ m :: post) = some (a ++ b :: c) := by
          rw [bodiesOf_append, hpre]
          simp [bodiesOf, hbody, hpost]
        have hb2 : bodiesOf (pre ++ post) = some (a ++ c) := by
          rw [bodiesOf_append, hpre, hpost]
        have hlen : a.length = pre.length := bodiesOf_length pre a hpre
        unfold poll_queue
        rw [hbm, hb2]
        dsimp only
        rw [cycleTriples_append oracle pre (m :: post) a (b :: c) hlen,
          cycleTriples_append oracle pre post a c hlen,
          show cycleTriples oracle (m :: post) (b :: c) =
            (b, lookupFor oracle (pyGet b "sns_id"), m.receiptHandle) ::
              cycleTriples oracle post c from rfl,
          processLoop_skip_mid cfg now qname sendOk _ _ _ _ _ hskip]
  refine ⟨heq, fun hfresh hmem => hfresh ?_⟩
  rw [heq] at hmem
  exact poll_queue_acked_sub cfg now qname oracle sendOk (pre ++ post) forwardOk
    m.receiptHandle hmem

/-- Witness for C5: a batch of one valid message and one message whose
lookup finds nothing behaves exactly like the batch without the latter,
whose lease is not deleted. -/
theorem C5_witness :
    poll_queue cfg3 1000 "StatusUpdateQueue" okOracle (fun _ => true)
      [{ body := some bodyGood, receiptHandle := "rh1" },
       { body := some bodyNoSns, receiptHandle := "rh9" }] true =
      poll_queue cfg3 1000 "StatusUpdateQueue" okOracle (fun _ => true)
        [{ body := some bodyGood, receiptHandle := "rh1" }] true ∧
    "rh9" ∉ (poll_queue cfg3 1000 "StatusUpdateQueue" okOracle (fun _ => true)
      [{ body := some bodyGood, receiptHandle := "rh1" },
       { body := some bodyNoSns, receiptHandle := "rh9" }] true).acked := by
  have h := C5_notfound_left_leased cfg3 1000 "StatusUpdateQueue" okOracle (fun _ => true)
    [{ body := some bodyGood, receiptHandle := "rh1" }] []
    true { body := some bodyNoSns, receiptHandle := "rh9" } bodyNoSns rfl rfl
  exact ⟨h.1, h.2 (by decide)⟩

/-- Counterexample to claim C2 as stated: in a batch holding one valid
message and one structurally invalid message (lookup succeeded, no
forward-set entry), a failed forward submission leaves the invalid
lease of the invalid message unacknowledged — its acknowledgment is not independent of
the Forwarder outcome. -/
theorem C2_counterexample :
    origTruthy (lookupFor okOracle (pyGet bodyBad "sns_id")) = true ∧
    process_message 1000 bodyBad (lookupFor okOracle (pyGet bodyBad "sns_id")) = none ∧
    (poll_queue cfg3 1000 "StatusUpdateQueue" okOracle (fun _ => true)
      [{ body := some bodyGood, receiptHandle := "rh1" },
       { body := some bodyBad, receiptHandle := "rh2" }] false).submitted = true ∧
    (poll_queue cfg3 1000 "StatusUpdateQueue" okOracle (fun _ => true)
      [{ body := some bodyGood, receiptHandle := "rh1" },
       { body := some bodyBad, receiptHandle := "rh2" }] false).acked = [] := by
  exact ⟨rfl, rfl, rfl, rfl⟩

/-- Claim C2 as amended: a message whose lookup succeeded but which
produced no forward-set entry has its lease acknowledged exactly when the
forward set of the batch is empty or the forward submission succeeds; when the
forward set is non-empty and the submission fails, no lease of the batch
is acknowledged. -/
theorem C2_drained_ack (cfg : Config) (now : Int) (qname : String)
    (oracle : String → HttpResult) (sendOk : Dict → Bool)
    (messages : List SqsMessage) (forwardOk : Bool) (bodies : List Dict) (t : Triple)
    (hparse : bodiesOf messages = some bodies)
    (hok : ∀ u ∈ cycleTriples oracle messages bodies, raisePred cfg qname u = false)
    (ht : t ∈ cycleTriples oracle messages bodies)
    (htr : origTruthy t.2.1 = true)
    (_hev : eventOf now t = none) :
    ((((cycleTriples oracle messages bodies).filterMap (eventOf now)).isEmpty = true ∨
        forwardOk = true) →
      t.2.2 ∈ (poll_queue cfg now qname oracle sendOk messages forwardOk).acked) ∧
    ((((cycleTriples oracle messages bodies).filterMap (eventOf now)).isEmpty = false ∧
        forwardOk = false) →
      (poll_queue cfg now qname oracle sendOk messages forwardOk).acked = []) := by
  rw [poll_queue_ok cfg now qname oracle sendOk messages forwardOk bodies hparse hok]
  have hin : t.2.2 ∈ (cycleTriples oracle messages bodies).filterMap handleOf :=
    List.mem_filterMap.mpr ⟨t, ht, handleOf_of_origTruthy t htr⟩
  constructor
  · rintro (hc | hc)
    · simpa [hc] using hin
    · simpa [hc] using hin
  · rintro ⟨hc1, hc2⟩
    simp [hc1, hc2]

/-- Witness for the amended C2: a batch holding only the invalid message
has an empty forward set, and the lease of the invalid message is
acknowledged. -/
theorem C2_witness :
    "rh2" ∈ (poll_queue cfg3 1000 "StatusUpdateQueue" okOracle (fun _ => true)
      [{ body := some bodyBad, receiptHandle := "rh2" }] false).acked :=
  (C2_drained_ack cfg3 1000 "StatusUpdateQueue" okOracle (fun _ => true)
      [{ body := some bodyBad, receiptHandle := "rh2" }] false [bodyBad]
      (bodyBad, lookupFor okOracle (pyGet bodyBad "sns_id"), "rh2")
      rfl (by decide) (List.mem_singleton.mpr rfl) rfl rfl).1 (Or.inl rfl)

/-- Counterexample to claim C4 as stated: a StatusReport missing the
required sns_id field cannot be correlated (string concatenation with
None raises, so the lookup returns None), so the engine skips it and
leaves it leased: its lease is never acknowledged in the cycle, although
the claim says every report missing a required field is acknowledged. -/
theorem C4_counterexample :
    hasKey bodyNoSns "sns_id" = false ∧
    (poll_queue cfg3 1000 "StatusUpdateQueue" okOracle (fun _ => true)
      [{ body := some bodyNoSns, receiptHandle := "rh0" }] true).acked = [] ∧
    (poll_queue cfg3 1000 "StatusUpdateQueue" okOracle (fun _ => true)
      [{ body := some bodyNoSns, receiptHandle := "rh0" }] true).forwardSet = [] ∧
    (poll_queue cfg3 1000 "StatusUpdateQueue" okOracle (fun _ => true)
      [{ body := some bodyNoSns, receiptHandle := "rh0" }] true).aborted = false := by
  exact ⟨rfl, rfl, rfl, rfl⟩

/-- Claim C4 as amended: a StatusReport whose lookup succeeded but which
is missing a required field contributes nothing to the forward set (the
forward set consists solely of the per-message events, and the event of
this message is None), and its lease is acknowledged exactly when the
forward set of the batch
forward set is empty or the forward submission succeeds. -/
theorem C4_invalid_report_drained (cfg : Config) (now : Int) (qname : String)
    (oracle : String → HttpResult) (sendOk : Dict → Bool)
    (messages : List SqsMessage) (forwardOk : Bool) (bodies : List Dict) (t : Triple)
    (hparse : bodiesOf messages = some bodies)
    (hok : ∀ u ∈ cycleTriples oracle messages bodies, raisePred cfg qname u = false)
    (ht : t ∈ cycleTriples oracle messages bodies)
    (htr : origTruthy t.2.1 = true)
    (hval : requiredOk t.1 = false) :
    eventOf now t = none ∧
    (poll_queue cfg now qname oracle sendOk messages forwardOk).forwardSet =
      (cycleTriples oracle messages bodies).filterMap (eventOf now) ∧
    ((((cycleTriples oracle messages bodies).filterMap (eventOf now)).isEmpty = true ∨
        forwardOk = true) →
      t.2.2 ∈ (poll_queue cfg now qname oracle sendOk messages forwardOk).acked) ∧
    ((((cycleTriples oracle messages bodies).filterMap (eventOf now)).isEmpty = false ∧
        forwardOk = false) →
      (poll_queue cfg now qname oracle sendOk messages forwardOk).acked = []) := by
  have hev := eventOf_none_of_invalid now t hval
  rw [poll_queue_ok cfg now qname oracle sendOk messages forwardOk bodies hparse hok]
  have hin : t.2.2 ∈ (cycleTriples oracle messages bodies).filterMap handleOf :=
    List.mem_filterMap.mpr ⟨t, ht, handleOf_of_origTruthy t htr⟩
  refine ⟨hev, rfl, ?_, ?_⟩
  · rintro (hc | hc)
    · simpa [hc] using hin
    · simpa [hc] using hin
  · rintro ⟨hc1, hc2⟩
    simp [hc1, hc2]

/-- Witness for the amended C4: a lone report that misses only its
timestamp field is drained — looked up, not forwarded, acknowledged. -/
theorem C4_witness :
    eventOf 1000 (bodyBad, lookupFor okOracle (pyGet bodyBad "sns_id"), "rh2") = none ∧
    "rh2" ∈ (poll_queue cfg3 1000 "StatusUpdateQueue" okOracle (fun _ => true)
      [{ body := some bodyBad, receiptHandle := "rh2" }] true).acked := by
  have h := C4_invalid_report_drained cfg3 1000 "StatusUpdateQueue" okOracle
    (fun _ => true) [{ body := some bodyBad, receiptHandle := "rh2" }] true [bodyBad]
    (bodyBad, lookupFor okOracle (pyGet bodyBad "sns_id"), "rh2")
    rfl (by decide) (List.mem_singleton.mpr rfl) rfl rfl
  exact ⟨h.1, h.2.2.1 (Or.inl rfl)⟩

/-- Counterexample to claim C6 as stated: a report whose sns_id is the
empty string is a falsy Python value, so line 313 skips the retry even
though shouldRetry holds, the lookup succeeded and the retry count is
below the ceiling — no retry submission is made. -/
theorem C6_counterexample :
    should_retry bodyEmptySns "StatusUpdateQueue" = true ∧
    (lookupFor okOracle (pyGet bodyEmptySns "sns_id")).map
      (fun om => pyGet om "retry_cnt") = some (.num 1) ∧
    (1 : Int) < cfg3.max_retry_cnt ∧
    (poll_queue cfg3 1000 "StatusUpdateQueue" okOracle (fun _ => true)
      [{ body := some bodyEmptySns, receiptHandle := "rh0" }] true).retries = [] ∧
    (poll_queue cfg3 1000 "StatusUpdateQueue" okOracle (fun _ => true)
      [{ body := some bodyEmptySns, receiptHandle := "rh0" }] true).aborted = false := by
  exact ⟨rfl, rfl, by decide, rfl, rfl⟩

/-- Claim C6 as amended: for a message with shouldRetry true, a successful
lookup, a truthy (non-empty) sns_id and a numeric retry count, the retry submissions of the cycle are the per-message contributions; this message
contributes exactly one submission carrying retryCount + 1 when under the
ceiling and none when at or over it, and the forward set, acknowledgments
and submission outcome are the same whatever the retry sends return. -/
theorem C6_retry_dispatch (cfg : Config) (now : Int) (qname : String)
    (oracle : String → HttpResult) (sendOk : Dict → Bool)
    (messages : List SqsMessage) (forwardOk : Bool) (bodies : List Dict)
    (t : Triple) (om : Dict) (k : Int)
    (hparse : bodiesOf messages = some bodies)
    (hok : ∀ u ∈ cycleTriples oracle messages bodies, raisePred cfg qname u = false)
    (ht : t ∈ cycleTriples oracle messages bodies)
    (hom : t.2.1 = some om) (hne : om.isEmpty = false)
    (hsr : should_retry t.1 qname = true)
    (hsid : truthy (pyGet t.1 "sns_id") = true)
    (hpush : (cfg.push_queue_url == "") = false)
    (hrc : pyGet om "retry_cnt" = .num k) :
    (poll_queue cfg now qname oracle sendOk messages forwardOk).retries =
      (cycleTriples oracle messages bodies).flatMap (retryOf cfg qname sendOk) ∧
    (k < cfg.max_retry_cnt →
      ∃ rm, retryOf cfg qname sendOk t = [(rm, sendOk rm)] ∧
        dictFind rm "retry_cnt" = some (.num (k + 1))) ∧
    (cfg.max_retry_cnt ≤ k → retryOf cfg qname sendOk t = []) ∧
    (∀ sendOk2 : Dict → Bool,
      (poll_queue cfg now qname oracle sendOk2 messages forwardOk).forwardSet =
        (poll_queue cfg now qname oracle sendOk messages forwardOk).forwardSet ∧
      (poll_queue cfg now qname oracle sendOk2 messages forwardOk).acked =
        (poll_queue cfg now qname oracle sendOk messages forwardOk).acked ∧
      (poll_queue cfg now qname oracle sendOk2 messages forwardOk).submitted =
        (poll_queue cfg now qname oracle sendOk messages forwardOk).submitted) := by
  obtain ⟨md, om2, rh⟩ := t
  simp only at hom hsr hsid
  subst hom
  refine ⟨?_, ?_, ?_, ?_⟩
  · rw [poll_queue_ok cfg now qname oracle sendOk messages forwardOk bodies hparse hok]
  · intro hk
    have hlt : pyLtInt (pyGet om "retry_cnt") cfg.max_retry_cnt = .ok true := by
      rw [hrc]
      simp [pyLtInt, hk]
    refine ⟨[("apid", pyGetD om "ap_id" (.str "")),
        ("transaction_id", pyGetD om "transaction_id" (.str "")),
        ("token", pyGetD om "token" (.str "")),
        ("payload", pyGetD om "payload" (.obj [])),
        ("retry_cnt", .num (k + 1))], ?_, ?_⟩
    · simp only [retryOf, hne, Bool.false_eq_true, if_false, hsr, if_true, hlt, hsid,
        Bool.not_false, Bool.and_true, Bool.true_and]
      rw [hrc]
      simp [send_retry_message, hpush, pyAdd1]
    · rfl
  · intro hk
    have hlt : pyLtInt (pyGet om "retry_cnt") cfg.max_retry_cnt = .ok false := by
      rw [hrc]
      simp [pyLtInt, not_lt.mpr hk]
    simp [retryOf, hne, hsr, hlt]
  · intro sendOk2
    rw [poll_queue_ok cfg now qname oracle sendOk messages forwardOk bodies hparse hok,
      poll_queue_ok cfg now qname oracle sendOk2 messages forwardOk bodies hparse hok]
    exact ⟨rfl, rfl, rfl⟩

/-- Witness for the amended C6: a FAILURE report with sns_id s1 whose
original request has retry_cnt 0 produces exactly one retry submission
carrying retry_cnt 1, which is the whole retry list of the cycle. -/
theorem C6_witness :
    ∃ rm, retryOf cfg3 "StatusUpdateQueue" (fun _ => true)
        (bodyValid, lookupFor rc0Oracle (pyGet bodyValid "sns_id"), "rh0") =
        [(rm, true)] ∧
      dictFind rm "retry_cnt" = some (.num 1) ∧
      (poll_queue cfg3 1000 "StatusUpdateQueue" rc0Oracle (fun _ => true)
        [{ body := some bodyValid, receiptHandle := "rh0" }] true).retries =
        [(rm, true)] := by
  obtain ⟨h1, h2, _, _⟩ := C6_retry_dispatch cfg3 1000 "StatusUpdateQueue" rc0Oracle
    (fun _ => true) [{ body := some bodyValid, receiptHandle := "rh0" }] true
    [bodyValid]
    (bodyValid, lookupFor rc0Oracle (pyGet bodyValid "sns_id"), "rh0")
    [("transaction_id", .str "t1"), ("retry_cnt", .num 0), ("token", .str "tok"),
     ("ap_id", .str "a1"), ("payload", .obj [("k", .str "v")])] 0
    rfl (by decide) (List.mem_singleton.mpr rfl) rfl rfl rfl rfl rfl rfl
  obtain ⟨rm, hrm, hrc1⟩ := h2 (by decide)
  refine ⟨rm, hrm, hrc1, ?_⟩
  rw [h1]
  rw [show cycleTriples rc0Oracle [{ body := some bodyValid, receiptHandle := "rh0" }]
      [bodyValid] =
    [(bodyValid, lookupFor rc0Oracle (pyGet bodyValid "sns_id"), "rh0")] from rfl]
  simp only [List.flatMap_cons, List.flatMap_nil, List.append_nil]
  exact hrm

end MessageStatus
